import Mathlib

/-!
Verification of the risk-aware alert decision engine of the
blind-obstacle-detection repository.  The engine lives as JavaScript inside
`SYSTEM_ARCHITECTURE.md` (functions `getRiskCategory`, `getDistanceLevel`,
`getBboxSize`, `calculateMotionStatus`, `buildSmartMessage`, `speak`,
`processDetections`).  This file gives a shallow embedding of that code:
numbers carried by detections (distances, bounding-box coordinates) become
exact rationals, timestamps become naturals (`Date.now()` values are
non-negative and monotone; for the window comparisons used here truncated
subtraction agrees with JavaScript's signed subtraction), JavaScript's
falsy-default idioms (`x || d`) become explicit option/zero defaults, and
the browser speech API becomes an explicit log of dispatched utterances.
-/

namespace BlindCap

/-- Risk tier labels, from `RISK_CATEGORIES`. -/
inductive RiskLabel
  | HIGH
  | MEDIUM
  | LOW
deriving DecidableEq, Repr

/-- A risk category entry: label plus integer priority, from `RISK_CATEGORIES`. -/
structure RiskCategory where
  label : RiskLabel
  priority : Nat
deriving DecidableEq, Repr

/-- `RISK_CATEGORIES.HIGH.objects`. -/
def highObjects : List String :=
  ["car", "bus", "truck", "train", "airplane"]

/-- `RISK_CATEGORIES.MEDIUM.objects`. -/
def mediumObjects : List String :=
  ["bicycle", "motorcycle", "person", "dog", "horse"]

/-- `RISK_CATEGORIES.HIGH` (label and priority; the object list is separate). -/
def RISK_HIGH : RiskCategory := ⟨.HIGH, 3⟩

/-- `RISK_CATEGORIES.MEDIUM`. -/
def RISK_MEDIUM : RiskCategory := ⟨.MEDIUM, 2⟩

/-- `RISK_CATEGORIES.LOW`. -/
def RISK_LOW : RiskCategory := ⟨.LOW, 1⟩

/-- JavaScript `toLowerCase()`, mapped over the character data (all class
labels handled by the engine are ASCII, where this agrees with the browser
function). -/
def jsToLower (s : String) : String :=
  ⟨s.data.map Char.toLower⟩

/-- Embeds `getRiskCategory`: lowercase the class, look it up in the HIGH
then MEDIUM object lists, defaulting to LOW. -/
def getRiskCategory (objectClass : String) : RiskCategory :=
  let lowerClass := jsToLower objectClass
  if highObjects.contains lowerClass then RISK_HIGH
  else if mediumObjects.contains lowerClass then RISK_MEDIUM
  else RISK_LOW

/-- Distance tier labels, from `DISTANCE_LEVELS`. -/
inductive DistLabel
  | VERY_CLOSE
  | NEAR
  | FAR
  | CLEAR
deriving DecidableEq, Repr

/-- A distance level entry: label plus integer priority, from `DISTANCE_LEVELS`
(the numeric thresholds appear directly in `getDistanceLevel`). -/
structure DistanceLevel where
  label : DistLabel
  priority : Nat
deriving DecidableEq, Repr

/-- `DISTANCE_LEVELS.VERY_CLOSE` (threshold 1.2). -/
def LEVEL_VERY_CLOSE : DistanceLevel := ⟨.VERY_CLOSE, 3⟩

/-- `DISTANCE_LEVELS.NEAR` (threshold 3.0). -/
def LEVEL_NEAR : DistanceLevel := ⟨.NEAR, 2⟩

/-- `DISTANCE_LEVELS.FAR` (threshold 6.0). -/
def LEVEL_FAR : DistanceLevel := ⟨.FAR, 1⟩

/-- `DISTANCE_LEVELS.CLEAR` (threshold Infinity). -/
def LEVEL_CLEAR : DistanceLevel := ⟨.CLEAR, 0⟩

/-- `DISTANCE_LEVELS.VERY_CLOSE.threshold` (1.2, written as an exact
rational). -/
def veryCloseThreshold : ℚ := mkRat 12 10

/-- `DISTANCE_LEVELS.NEAR.threshold` (3.0). -/
def nearThreshold : ℚ := 3

/-- `DISTANCE_LEVELS.FAR.threshold` (6.0); the CLEAR threshold is Infinity
and never compared against. -/
def farThreshold : ℚ := 6

/-- Embeds `getDistanceLevel`: cascaded inclusive upper-threshold checks. -/
def getDistanceLevel (distanceM : ℚ) : DistanceLevel :=
  if distanceM ≤ veryCloseThreshold then LEVEL_VERY_CLOSE
  else if distanceM ≤ nearThreshold then LEVEL_NEAR
  else if distanceM ≤ farThreshold then LEVEL_FAR
  else LEVEL_CLEAR

/-- `VOICE_CONFIG.globalCooldown`. -/
def globalCooldown : Nat := 8000

/-- `VOICE_CONFIG.criticalCooldown`. -/
def criticalCooldown : Nat := 3000

/-- `VOICE_CONFIG.perObjectCooldown`. -/
def perObjectCooldown : Nat := 10000

/-- `MOTION_CONFIG.approachThreshold` (1.05, written as an exact rational). -/
def approachThreshold : ℚ := mkRat 105 100

/-- `MOTION_CONFIG.recedeThreshold` (0.95, written as an exact rational). -/
def recedeThreshold : ℚ := mkRat 95 100

/-- `MOTION_CONFIG.minSamples`. -/
def minSamples : Nat := 2

/-- `MOTION_CONFIG.sizeHistoryLength`. -/
def sizeHistoryLength : Nat := 5

/-- The record `{ isApproaching, isReceding, isStationary }` returned by
`calculateMotionStatus`. -/
structure MotionStatus where
  isApproaching : Bool
  isReceding : Bool
  isStationary : Bool
deriving DecidableEq, Repr

/-- The record built from a size ratio in both branches of
`calculateMotionStatus`. -/
def motionFromRatio (ratio : ℚ) : MotionStatus :=
  { isApproaching := decide (ratio ≥ approachThreshold)
    isReceding := decide (ratio ≤ recedeThreshold)
    isStationary := decide (ratio > recedeThreshold ∧ ratio < approachThreshold) }

/-- Embeds `calculateMotionStatus`.  `slice(-2)` of a list of length `n ≥ 2`
is `drop (n-2)`, `slice(0, -2)` is `take (n-2)`.  The engine only ever pushes
strictly positive areas into the history, so the JavaScript divisions are by
nonzero floats on every reachable input; here division is exact on `ℚ`. -/
def calculateMotionStatus (sizeHistory : List ℚ) : MotionStatus :=
  if sizeHistory.length < minSamples then
    { isApproaching := false, isReceding := false, isStationary := true }
  else
    let recent := sizeHistory.drop (sizeHistory.length - 2)
    let older := sizeHistory.take (sizeHistory.length - 2)
    if older.length = 0 then
      motionFromRatio (recent.getD 1 0 / recent.getD 0 0)
    else
      let recentAvg := recent.sum / (recent.length : ℚ)
      let olderAvg := older.sum / (older.length : ℚ)
      motionFromRatio (recentAvg / olderAvg)

/-- Embeds `buildSmartMessage`.  `position` is the already-defaulted string
(`det.position || 'center'`); `risk` and `level` are the classifier records.
The JavaScript `motionStatus?.isStationary || true` is kept verbatim (it is
constantly `true`), as is the redundant `&& isApproaching` in the FAR arm. -/
def buildSmartMessage (objectClass : String) (risk : RiskCategory)
    (level : DistanceLevel) (position : String) (motionStatus : MotionStatus) :
    Option String :=
  let isVehicle := highObjects.contains (jsToLower objectClass)
  let isMediumRisk := risk.label == RiskLabel.MEDIUM
  let isPerson := jsToLower objectClass == "person"
  let isApproaching := motionStatus.isApproaching || false
  let isStationary := motionStatus.isStationary || true
  let dirText : String :=
    if level.label == DistLabel.VERY_CLOSE then
      if position == "left" then " on left"
      else if position == "right" then " on right"
      else ""
    else ""
  let dirOrAhead : String := if dirText == "" then " ahead" else dirText
  if level.label == DistLabel.FAR then
    if !isApproaching then none
    else if isVehicle && isApproaching then some "Vehicle approaching ahead."
    else if isPerson && isApproaching then some "Person approaching."
    else if risk.label == RiskLabel.LOW then none
    else if isApproaching then some (objectClass ++ " approaching.")
    else none
  else if level.label == DistLabel.NEAR then
    if isStationary && !isApproaching then
      if isVehicle then some "Vehicle nearby."
      else if risk.label == RiskLabel.LOW then none
      else if isPerson then some "Person nearby."
      else none
    else if isApproaching then
      if isVehicle then some "Vehicle approaching. Stay alert."
      else if isPerson then some "Person approaching."
      else if isMediumRisk then some (objectClass ++ " approaching.")
      else some "Obstacle approaching."
    else if isVehicle then some "Vehicle nearby."
    else none
  else if level.label == DistLabel.VERY_CLOSE then
    if isVehicle then
      if isApproaching then some ("Stop. Vehicle very close" ++ dirText ++ ". Moving.")
      else some ("Stop. Vehicle very close" ++ dirText ++ ".")
    else if isPerson then
      if isApproaching then some ("Careful. Person approaching" ++ dirOrAhead ++ ".")
      else some ("Careful. Person" ++ dirOrAhead ++ ".")
    else if isMediumRisk then
      if isApproaching then some ("Stop. " ++ objectClass ++ " approaching" ++ dirText ++ ".")
      else some ("Stop. " ++ objectClass ++ dirOrAhead ++ ".")
    else if isApproaching then some ("Obstacle approaching" ++ dirOrAhead ++ ".")
    else some ("Obstacle" ++ dirOrAhead ++ ". Stop.")
  else none

/-- A deserialized detection, from the duck-typed objects `processDetections`
consumes.  Optional fields stand for JavaScript `undefined`; the three
alternative bounding-box encodings of `getBboxSize` (a `bbox` array, the
individual `x1..y2` properties, a `width`/`height` pair) are each an
optional group. -/
structure Detection where
  cls : String
  track_id : Option String
  distance_m : Option ℚ
  position : Option String
  bbox : Option (ℚ × ℚ × ℚ × ℚ)
  coords : Option (ℚ × ℚ × ℚ × ℚ)
  widthHeight : Option (ℚ × ℚ)
deriving DecidableEq, Repr

/-- JavaScript `s || d` for an optional string: `undefined` and `""` are
falsy. -/
def jsOrStr (s : Option String) (d : String) : String :=
  match s with
  | some v => if v == "" then d else v
  | none => d

/-- JavaScript `x || d` for an optional number: `undefined` and `0` are
falsy (NaN, also falsy, is outside this rational model). -/
def jsOrNum (x : Option ℚ) (d : ℚ) : ℚ :=
  match x with
  | some v => if v == 0 then d else v
  | none => d

/-- Embeds `getBboxSize`: `bbox` array first, then individual coordinates,
then a truthy `width`/`height` pair, else 0.  The `width`/`height` arm keeps
the JavaScript truthiness test (a zero dimension falls through to 0). -/
def getBboxSize (det : Detection) : ℚ :=
  match det.bbox with
  | some (x1, y1, x2, y2) => |(x2 - x1) * (y2 - y1)|
  | none =>
    match det.coords with
    | some (x1, y1, x2, y2) => |(x2 - x1) * (y2 - y1)|
    | none =>
      match det.widthHeight with
      | some (w, h) => if w ≠ 0 ∧ h ≠ 0 then w * h else 0
      | none => 0

/-- Dispatch priority of `speak`. -/
inductive Priority
  | critical
  | normal
deriving DecidableEq, Repr

/-- The voice-channel state: `STATE.voiceActive`, the module-level
`lastSpeechTime`, plus an explicit model of the browser speech API —
`log` records every utterance handed to `speechSynthesis.speak` and
`cancels` counts the `speechSynthesis.cancel()` calls. -/
structure VoiceState where
  voiceActive : Bool
  lastSpeechTime : Nat
  log : List (String × Priority)
  cancels : Nat
deriving DecidableEq, Repr

/-- Embeds `speak(text, priority)`.  The speech API itself is assumed
present (`speechSynthesis` truthy); the guard keeps the `STATE.voiceActive`
and empty-text checks.  Returns the boolean result and the updated state. -/
def speak (vs : VoiceState) (now : Nat) (text : String) (priority : Priority) :
    Bool × VoiceState :=
  if !vs.voiceActive || text == "" then (false, vs)
  else
    let cooldown := if priority == Priority.critical then criticalCooldown
      else globalCooldown
    if priority ≠ Priority.critical ∧ now - vs.lastSpeechTime < cooldown then
      (false, vs)
    else
      let vs1 := if priority == Priority.critical then
          { vs with cancels := vs.cancels + 1 }
        else vs
      (true, { vs1 with
        log := vs1.log ++ [(text, priority)],
        lastSpeechTime := now })

/-- A `objectState` map entry, from the record literal stored by
`processDetections`. -/
structure TrackedState where
  level : DistanceLevel
  risk : RiskCategory
  cls : String
  position : String
  distance : ℚ
  bboxSizes : List ℚ
  isApproaching : Bool
  isStationary : Bool
  lastSeen : Nat
  lastAnnounced : Nat
deriving DecidableEq, Repr

/-- The `objectState` map, as an insertion-ordered association list
(JavaScript `Map` iterates in insertion order; `set` on an existing key
updates in place). -/
abbrev Store := List (String × TrackedState)

/-- `Map.get`: the first entry with the key, if any. -/
def mapGet : Store → String → Option TrackedState
  | [], _ => none
  | e :: t, k => if e.1 == k then some e.2 else mapGet t k

/-- `Map.has`. -/
def mapMember : Store → String → Bool
  | [], _ => false
  | e :: t, k => e.1 == k || mapMember t k

/-- `Map.set`: replace in place when the key exists, append otherwise. -/
def mapSet (m : Store) (k : String) (v : TrackedState) : Store :=
  if mapMember m k then m.map (fun e => if e.1 == k then (k, v) else e)
  else m ++ [(k, v)]

/-- The track identity used by `processDetections`:
`det.track_id || det.class + "_" + (det.position || "c")`. -/
def trackIdOf (det : Detection) : String :=
  jsOrStr det.track_id (det.cls ++ "_" ++ jsOrStr det.position "c")

/-- The size-history update of `processDetections`: push only a strictly
positive area, then keep the last `sizeHistoryLength` samples. -/
def updateSizes (bboxSizes0 : List ℚ) (bboxSize : ℚ) : List ℚ :=
  if bboxSize > 0 then
    let pushed := bboxSizes0 ++ [bboxSize]
    if sizeHistoryLength < pushed.length then
      pushed.drop (pushed.length - sizeHistoryLength)
    else pushed
  else bboxSizes0

/-- The per-cycle announcement candidate record of `processDetections`. -/
structure Announcement where
  trackId : String
  message : String
  priority : Nat
  isCritical : Bool
deriving DecidableEq, Repr

/-- The candidate-retention step of `processDetections`:
`if (!announcement || announcePriority > announcement.priority) announcement = ...`. -/
def considerCandidate (acc : Option Announcement) (c : Announcement) :
    Option Announcement :=
  match acc with
  | none => some c
  | some a => if a.priority < c.priority then some c else some a

/-- The loop-carried state of the `for (const det of sorted)` loop in
`processDetections`: the object store, the `currentIds` set (kept as a list
in insertion order) and the best announcement so far. -/
structure LoopState where
  store : Store
  currentIds : List String
  announcement : Option Announcement
deriving DecidableEq, Repr

/-- The sort comparator of `processDetections`: descending risk priority,
then ascending defaulted distance; `true` means `a` strictly precedes `b`. -/
def detBefore (a b : Detection) : Bool :=
  let riskA := (getRiskCategory a.cls).priority
  let riskB := (getRiskCategory b.cls).priority
  if riskA != riskB then decide (riskB < riskA)
  else decide (jsOrNum a.distance_m 10 < jsOrNum b.distance_m 10)

/-- Stable insertion into a sorted list: an element passes over exactly the
entries that strictly precede it. -/
def insertSorted (a : Detection) : List Detection → List Detection
  | [] => [a]
  | b :: l => if detBefore b a then b :: insertSorted a l else a :: b :: l

/-- The stable sort `[...detections].sort(...)` of `processDetections`
(JavaScript `Array.prototype.sort` is stable). -/
def sortDetections (l : List Detection) : List Detection :=
  l.foldr insertSorted []

/-- One iteration of the detection loop of `processDetections`. -/
def processOne (now : Nat) (ls : LoopState) (det : Detection) : LoopState :=
  let trackId := trackIdOf det
  let currentIds := ls.currentIds ++ [trackId]
  let distance := jsOrNum det.distance_m 10
  let level := getDistanceLevel distance
  let risk := getRiskCategory det.cls
  let position := jsOrStr det.position "center"
  let bboxSize := getBboxSize det
  if level.label == DistLabel.CLEAR then
    { store := ls.store, currentIds := currentIds,
      announcement := ls.announcement }
  else
    let prev := mapGet ls.store trackId
    let prevApproaching := match prev with
      | some p => p.isApproaching || false
      | none => false
    let bboxSizes0 := match prev with
      | some p => p.bboxSizes
      | none => []
    let bboxSizes := updateSizes bboxSizes0 bboxSize
    let motionStatus := calculateMotionStatus bboxSizes
    let isNew := prev.isNone
    let levelChanged := match prev with
      | some p => p.level.label != level.label
      | none => false
    let riskChanged := match prev with
      | some p => p.risk.label != risk.label
      | none => false
    let approachingChanged := match prev with
      | some _ => prevApproaching != motionStatus.isApproaching
      | none => false
    let perObjectCooldownOk := match prev with
      | none => true
      | some p => (p.lastAnnounced == 0) ||
          decide (perObjectCooldown < now - p.lastAnnounced)
    let store := mapSet ls.store trackId
      { level := level, risk := risk, cls := det.cls, position := position,
        distance := distance, bboxSizes := bboxSizes,
        isApproaching := motionStatus.isApproaching,
        isStationary := motionStatus.isStationary,
        lastSeen := now,
        lastAnnounced := match prev with | some p => p.lastAnnounced | none => 0 }
    let shouldAnnounce := (isNew || levelChanged || riskChanged ||
      (approachingChanged && motionStatus.isApproaching)) && perObjectCooldownOk
    if !shouldAnnounce then
      { store := store, currentIds := currentIds,
        announcement := ls.announcement }
    else
      match buildSmartMessage det.cls risk level position motionStatus with
      | none =>
        { store := store, currentIds := currentIds,
          announcement := ls.announcement }
      | some msg =>
        let announcePriority := level.priority * 10 + risk.priority
        let isCritical := (level.label == DistLabel.VERY_CLOSE) ||
          (risk.label == RiskLabel.HIGH && level.label == DistLabel.NEAR)
        { store := store, currentIds := currentIds,
          announcement := considerCandidate ls.announcement
            ⟨trackId, msg, announcePriority, isCritical⟩ }

/-- The stale-track cleanup of `processDetections`: delete every entry whose
id is not current and whose `lastSeen` is more than 5000ms old. -/
def sweep (now : Nat) (currentIds : List String) (store : Store) : Store :=
  store.filter (fun e => currentIds.contains e.1 || !decide (5000 < now - e.2.lastSeen))

/-- The announcement block closing `processDetections`: dispatch the winning
candidate at critical or normal priority and, only when actually spoken,
stamp the winner's `lastAnnounced`. -/
def dispatchAnnouncement (voice : VoiceState) (store : Store)
    (ann : Option Announcement) (now : Nat) : VoiceState × Store :=
  match ann with
  | none => (voice, store)
  | some a =>
    let priority := if a.isCritical then Priority.critical else Priority.normal
    let res := speak voice now a.message priority
    let store2 := if res.1 then
        match mapGet store a.trackId with
        | some s => mapSet store a.trackId { s with lastAnnounced := now }
        | none => store
      else store
    (res.2, store2)

/-- The whole engine state advanced by one cycle: the `voiceReady` flag, the
`objectState` map and the voice channel. -/
structure EngineState where
  voiceReady : Bool
  objectState : Store
  voice : VoiceState
deriving DecidableEq, Repr

/-- Embeds `processDetections(detections)` at wall-clock `now`. -/
def processDetections (st : EngineState) (detections : List Detection)
    (now : Nat) : EngineState :=
  if !st.voice.voiceActive || !st.voiceReady || detections.isEmpty then st
  else
    let sorted := sortDetections detections
    let ls := sorted.foldl (processOne now)
      ⟨st.objectState, [], none⟩
    let store := sweep now ls.currentIds ls.store
    let vs := dispatchAnnouncement st.voice store ls.announcement now
    { st with objectState := vs.2, voice := vs.1 }

/-- A single motion verdict, the reading of the three boolean flags. -/
inductive MotionVerdict
  | approaching
  | receding
  | stationary
deriving DecidableEq, Repr

/-- The verdict encoded by a `MotionStatus` record (the flags set by
`calculateMotionStatus` are mutually exclusive). -/
def verdictOf (m : MotionStatus) : MotionVerdict :=
  if m.isApproaching then MotionVerdict.approaching
  else if m.isReceding then MotionVerdict.receding
  else MotionVerdict.stationary

/-- The specification's description of the motion algorithm, written
independently of `calculateMotionStatus` for the refinement comparison:
fewer than 2 samples is stationary; exactly 2 samples compare directly as
`size[1]/size[0]`; 3 or more samples compare the mean of the most recent
two against the mean of all earlier samples; the verdict is approaching
when the ratio is at least 1.05, receding when it is at most 0.95, and
stationary otherwise. -/
def specMotionVerdict (h : List ℚ) : MotionVerdict :=
  if h.length < 2 then MotionVerdict.stationary
  else
    let ratio :=
      if h.length = 2 then h.getD 1 0 / h.getD 0 0
      else
        let recent := h.drop (h.length - 2)
        let older := h.take (h.length - 2)
        (recent.sum / 2) / (older.sum / (older.length : ℚ))
    if approachThreshold ≤ ratio then MotionVerdict.approaching
    else if ratio ≤ recedeThreshold then MotionVerdict.receding
    else MotionVerdict.stationary

/-- Fold step for `firstMax`: keep `a` unless the best of the rest strictly
beats it. -/
def mergeBest (a : Announcement) : Option Announcement → Option Announcement
  | none => some a
  | some b => if a.priority < b.priority then some b else some a

/-- The first candidate of maximal priority in a list — the specification's
"retain the single highest-scoring candidate, ties keep the first
encountered", written independently of the loop's accumulator update. -/
def firstMax : List Announcement → Option Announcement
  | [] => none
  | a :: l => mergeBest a (firstMax l)

/-- The per-detection candidate-selection data of one loop iteration, for
stating arbitration properties: distance level and risk of a detection. -/
def levelOf (det : Detection) : DistanceLevel :=
  getDistanceLevel (jsOrNum det.distance_m 10)

/-- The risk category a detection is classified into. -/
def riskOf (det : Detection) : RiskCategory :=
  getRiskCategory det.cls

/-- A key absent from every entry is not found. -/
theorem mapGet_eq_none {m : Store} {k : String} (h : ∀ p ∈ m, p.1 ≠ k) :
    mapGet m k = none := by
  induction m with
  | nil => rfl
  | cons e t ih =>
    have he : e.1 ≠ k := h e (List.mem_cons_self e t)
    simp only [mapGet, beq_eq_false_iff_ne.mpr he, if_neg, Bool.false_eq_true,
      reduceIte]
    exact ih fun p hp => h p (List.mem_cons_of_mem e hp)

/-- A successful lookup returns an entry of the list. -/
theorem mapGet_some_mem {m : Store} {k : String} {v : TrackedState}
    (h : mapGet m k = some v) : (k, v) ∈ m := by
  induction m with
  | nil => cases h
  | cons e t ih =>
    by_cases hek : (e.1 == k) = true
    · simp only [mapGet, hek, if_pos, Option.some_inj] at h
      obtain ⟨e1, e2⟩ := e
      simp only [beq_iff_eq] at hek
      dsimp at hek h
      rw [hek, h]
      exact List.mem_cons_self _ _
    · simp only [mapGet, hek, Bool.false_eq_true, reduceIte] at h
      · exact List.mem_cons_of_mem e (ih h)

/-- A key reported absent occurs in no entry. -/
theorem mapMember_false_forall {m : Store} {k : String}
    (h : mapMember m k = false) : ∀ p ∈ m, p.1 ≠ k := by
  induction m with
  | nil => intro p hp; cases hp
  | cons e t ih =>
    simp only [mapMember, Bool.or_eq_false_iff] at h
    intro p hp
    rcases List.mem_cons.mp hp with rfl | hp
    · simpa using h.1
    · exact ih h.2 p hp

/-- Entries after `mapSet` are the new binding or untouched old entries. -/
theorem mem_mapSet {m : Store} {k : String} {v : TrackedState}
    {p : String × TrackedState} (h : p ∈ mapSet m k v) :
    p = (k, v) ∨ (p ∈ m ∧ p.1 ≠ k) := by
  unfold mapSet at h
  split at h
  · rw [List.mem_map] at h
    obtain ⟨e, he, hfe⟩ := h
    by_cases hek : (e.1 == k) = true
    · left
      rw [if_pos hek] at hfe
      exact hfe.symm
    · right
      rw [if_neg hek] at hfe
      subst hfe
      exact ⟨he, by simpa using hek⟩
  · rw [List.mem_append] at h
    rcases h with h | h
    · right
      rename_i hns
      exact ⟨h, mapMember_false_forall (by simpa using hns) p h⟩
    · left
      simpa using h

/-- Looking up the key just set returns the value just stored. -/
theorem mapGet_mapSet_self {m : Store} {k : String} {v : TrackedState} :
    mapGet (mapSet m k v) k = some v := by
  unfold mapSet
  split
  · rename_i hs
    induction m with
    | nil => cases hs
    | cons e t ih =>
      by_cases hek : (e.1 == k) = true
      · simp [mapGet, hek]
      · simp only [mapMember, hek, Bool.false_or] at hs
        simp only [List.map_cons, if_neg hek, mapGet, hek, Bool.false_eq_true,
          reduceIte]
        exact ih hs
  · induction m with
    | nil => simp [mapGet]
    | cons e t ih =>
      rename_i hns
      simp only [Bool.not_eq_true, mapMember, Bool.or_eq_false_iff] at hns
      simp only [List.cons_append, mapGet, hns.1, Bool.false_eq_true, reduceIte]
      exact ih (by simp [hns.2])

/-- Every loop iteration records the detection's track id, even when the
detection is skipped as CLEAR. -/
theorem processOne_currentIds (now : Nat) (ls : LoopState) (det : Detection) :
    (processOne now ls det).currentIds = ls.currentIds ++ [trackIdOf det] := by
  unfold processOne
  dsimp only
  split
  · rfl
  · split
    · rfl
    · split <;> rfl

/-- After the whole loop, `currentIds` lists the track id of every
detection in order. -/
theorem foldl_currentIds (now : Nat) (l : List Detection) (ls : LoopState) :
    (l.foldl (processOne now) ls).currentIds =
      ls.currentIds ++ l.map trackIdOf := by
  induction l generalizing ls with
  | nil => simp
  | cons d t ih =>
    rw [List.foldl_cons, ih, processOne_currentIds]
    simp

/-- One loop iteration either leaves the store alone (CLEAR skip) or writes
exactly the detection's own track id. -/
theorem processOne_store_cases (now : Nat) (ls : LoopState) (det : Detection) :
    (processOne now ls det).store = ls.store ∨
    ∃ v, (processOne now ls det).store = mapSet ls.store (trackIdOf det) v := by
  unfold processOne
  dsimp only
  split
  · exact Or.inl rfl
  · split
    · exact Or.inr ⟨_, rfl⟩
    · split
      · exact Or.inr ⟨_, rfl⟩
      · exact Or.inr ⟨_, rfl⟩

/-- A store entry after one iteration was already present or carries the
processed detection's id. -/
theorem mem_store_processOne {now : Nat} {ls : LoopState} {det : Detection}
    {p : String × TrackedState} (h : p ∈ (processOne now ls det).store) :
    p ∈ ls.store ∨ p.1 = trackIdOf det := by
  rcases processOne_store_cases now ls det with hc | ⟨v, hc⟩
  · rw [hc] at h
    exact Or.inl h
  · rw [hc] at h
    rcases mem_mapSet h with h' | h'
    · right
      rw [h']
    · exact Or.inl h'.1

/-- A store entry after the whole loop was already present or carries some
processed detection's id. -/
theorem mem_store_foldl {now : Nat} {l : List Detection} {ls : LoopState}
    {p : String × TrackedState} (h : p ∈ (l.foldl (processOne now) ls).store) :
    p ∈ ls.store ∨ p.1 ∈ l.map trackIdOf := by
  induction l generalizing ls with
  | nil => exact Or.inl h
  | cons d t ih =>
    rw [List.foldl_cons] at h
    rcases ih h with h' | h'
    · rcases mem_store_processOne h' with h'' | h''
      · exact Or.inl h''
      · right
        simp [h'']
    · right
      simp [h']

/-- Insertion used by the stable sort preserves membership. -/
theorem mem_insertSorted {a : Detection} {l : List Detection} {x : Detection} :
    x ∈ insertSorted a l ↔ x = a ∨ x ∈ l := by
  induction l with
  | nil => simp [insertSorted]
  | cons b t ih =>
    unfold insertSorted
    split
    · simp only [List.mem_cons, ih]
      tauto
    · simp [List.mem_cons]

/-- Sorting the batch preserves membership. -/
theorem mem_sortDetections {l : List Detection} {x : Detection} :
    x ∈ sortDetections l ↔ x ∈ l := by
  unfold sortDetections
  induction l with
  | nil => simp
  | cons d t ih =>
    simp only [List.foldr_cons, mem_insertSorted, List.mem_cons, ih]

/-- Track ids of the sorted batch are the track ids of the batch. -/
theorem mem_map_sortDetections {l : List Detection} {s : String} :
    s ∈ (sortDetections l).map trackIdOf ↔ s ∈ l.map trackIdOf := by
  simp only [List.mem_map, mem_sortDetections]

/-- `speak` with the voice inactive or an empty text returns false and
changes nothing. -/
theorem speak_guard_false {vs : VoiceState} {now : Nat} {text : String}
    {pr : Priority} (h : (!vs.voiceActive || text == "") = true) :
    speak vs now text pr = (false, vs) := by
  unfold speak
  rw [if_pos h]

/-- `speak` suppressed by the cooldown check returns false and changes
nothing. -/
theorem speak_cooldown_reject {vs : VoiceState} {now : Nat} {text : String}
    {pr : Priority} (h1 : (!vs.voiceActive || text == "") = false)
    (h2 : pr ≠ Priority.critical ∧ now - vs.lastSpeechTime <
      (if pr == Priority.critical then criticalCooldown else globalCooldown)) :
    speak vs now text pr = (false, vs) := by
  unfold speak
  rw [if_neg (by simp [h1])]
  dsimp only
  rw [if_pos h2]

/-- A successful `speak` returns true, stamps `lastSpeechTime`, appends the
utterance to the log, and cancels current output exactly at critical
priority. -/
theorem speak_success_fields {vs : VoiceState} {now : Nat} {text : String}
    {pr : Priority} (h1 : (!vs.voiceActive || text == "") = false)
    (h2 : ¬(pr ≠ Priority.critical ∧ now - vs.lastSpeechTime <
      (if pr == Priority.critical then criticalCooldown else globalCooldown))) :
    (speak vs now text pr).1 = true ∧
    (speak vs now text pr).2.lastSpeechTime = now ∧
    (speak vs now text pr).2.log = vs.log ++ [(text, pr)] ∧
    (speak vs now text pr).2.cancels =
      vs.cancels + (if pr == Priority.critical then 1 else 0) ∧
    (speak vs now text pr).2.voiceActive = vs.voiceActive := by
  unfold speak
  rw [if_neg (by simp [h1])]
  dsimp only
  rw [if_neg h2]
  split <;> simp

/-- A dispatch that returns false leaves the voice state unchanged. -/
theorem speak_false_state {vs : VoiceState} {now : Nat} {text : String}
    {pr : Priority} :
    (speak vs now text pr).1 = false → (speak vs now text pr).2 = vs := by
  intro h
  by_cases h1 : (!vs.voiceActive || text == "") = true
  · rw [speak_guard_false h1]
  · rw [Bool.not_eq_true] at h1
    by_cases h2 : pr ≠ Priority.critical ∧ now - vs.lastSpeechTime <
      (if pr == Priority.critical then criticalCooldown else globalCooldown)
    · rw [speak_cooldown_reject h1 h2]
    · rw [(speak_success_fields h1 h2).1] at h
      cases h

/-- A dispatch that returns true stamps `lastSpeechTime` with the current
time. -/
theorem speak_true_lastSpeechTime {vs : VoiceState} {now : Nat} {text : String}
    {pr : Priority} :
    (speak vs now text pr).1 = true →
      (speak vs now text pr).2.lastSpeechTime = now := by
  intro h
  by_cases h1 : (!vs.voiceActive || text == "") = true
  · rw [speak_guard_false h1] at h
    cases h
  · rw [Bool.not_eq_true] at h1
    by_cases h2 : pr ≠ Priority.critical ∧ now - vs.lastSpeechTime <
      (if pr == Priority.critical then criticalCooldown else globalCooldown)
    · rw [speak_cooldown_reject h1 h2] at h
      cases h
    · exact (speak_success_fields h1 h2).2.1

/-- One `speak` call utters at most one message. -/
theorem speak_log_length (vs : VoiceState) (now : Nat) (text : String)
    (pr : Priority) :
    (speak vs now text pr).2.log.length ≤ vs.log.length + 1 := by
  by_cases h1 : (!vs.voiceActive || text == "") = true
  · rw [speak_guard_false h1]
    exact Nat.le_succ _
  · rw [Bool.not_eq_true] at h1
    by_cases h2 : pr ≠ Priority.critical ∧ now - vs.lastSpeechTime <
      (if pr == Priority.critical then criticalCooldown else globalCooldown)
    · rw [speak_cooldown_reject h1 h2]
      exact Nat.le_succ _
    · rw [(speak_success_fields h1 h2).2.2.1]
      simp

/-- Folding the candidate-retention step from a held candidate selects the
held one unless a strictly higher-priority candidate appears. -/
theorem foldl_considerCandidate_some (l : List Announcement) :
    ∀ a : Announcement,
      l.foldl considerCandidate (some a) = mergeBest a (firstMax l) := by
  induction l with
  | nil =>
    intro a
    rfl
  | cons c t ih =>
    intro a
    rw [List.foldl_cons]
    have h1 : considerCandidate (some a) c =
        if a.priority < c.priority then some c else some a := rfl
    have h2 : firstMax (c :: t) = mergeBest c (firstMax t) := rfl
    rw [h1, h2]
    by_cases hac : a.priority < c.priority
    · rw [if_pos hac, ih c]
      cases hft : firstMax t with
      | none => simp [mergeBest, hac]
      | some b =>
        by_cases hcb : c.priority < b.priority
        · have hab : a.priority < b.priority := by omega
          simp [mergeBest, hcb, hab]
        · simp [mergeBest, hcb, hac]
    · rw [if_neg hac, ih a]
      cases hft : firstMax t with
      | none => simp [mergeBest, hac]
      | some b =>
        by_cases hcb : c.priority < b.priority
        · simp [mergeBest, hcb]
        · have hab : ¬a.priority < b.priority := by omega
          simp [mergeBest, hcb, hac, hab]

/-- The loop's candidate retention computes exactly the first maximal
candidate. -/
theorem foldl_considerCandidate_none (l : List Announcement) :
    l.foldl considerCandidate none = firstMax l := by
  cases l with
  | nil => rfl
  | cons c t =>
    rw [List.foldl_cons]
    have h1 : considerCandidate none c = some c := rfl
    rw [h1, foldl_considerCandidate_some]
    rfl

/-- A nonempty candidate list always selects a candidate. -/
theorem firstMax_ne_none {a : Announcement} {t : List Announcement} :
    firstMax (a :: t) ≠ none := by
  have h2 : firstMax (a :: t) = mergeBest a (firstMax t) := rfl
  rw [h2]
  cases firstMax t with
  | none => simp [mergeBest]
  | some b =>
    simp only [mergeBest]
    split <;> simp

/-- The selected candidate is in the list and of maximal priority. -/
theorem firstMax_mem_max (l : List Announcement) :
    ∀ b, firstMax l = some b →
      b ∈ l ∧ ∀ c ∈ l, c.priority ≤ b.priority := by
  induction l with
  | nil =>
    intro b h
    cases h
  | cons a t ih =>
    intro b h
    have h2 : firstMax (a :: t) = mergeBest a (firstMax t) := rfl
    rw [h2] at h
    cases hft : firstMax t with
    | none =>
      rw [hft] at h
      simp only [mergeBest, Option.some_inj] at h
      subst h
      refine ⟨List.mem_cons_self _ _, ?_⟩
      intro c hc
      rcases List.mem_cons.mp hc with rfl | hc
      · exact Nat.le_refl _
      · cases t with
        | nil => cases hc
        | cons x y => exact absurd hft firstMax_ne_none
    | some m =>
      rw [hft] at h
      simp only [mergeBest] at h
      obtain ⟨hm_mem, hm_max⟩ := ih m hft
      by_cases ham : a.priority < m.priority
      · rw [if_pos ham] at h
        injection h with hb
        subst hb
        refine ⟨List.mem_cons_of_mem _ hm_mem, ?_⟩
        intro c hc
        rcases List.mem_cons.mp hc with rfl | hc
        · omega
        · exact hm_max c hc
      · rw [if_neg ham] at h
        injection h with hb
        subst hb
        refine ⟨List.mem_cons_self _ _, ?_⟩
        intro c hc
        rcases List.mem_cons.mp hc with rfl | hc
        · exact Nat.le_refl _
        · have := hm_max c hc
          omega

/-- Ties keep the first: a held candidate at least as high as everything
later is never replaced. -/
theorem foldl_keeps_max (l : List Announcement) (a : Announcement) :
    (∀ c ∈ l, c.priority ≤ a.priority) →
      l.foldl considerCandidate (some a) = some a := by
  induction l with
  | nil =>
    intro _
    rfl
  | cons c t ih =>
    intro h
    rw [List.foldl_cons]
    have h1 : considerCandidate (some a) c = some a := by
      show (if a.priority < c.priority then some c else some a) = some a
      rw [if_neg (by have := h c (List.mem_cons_self c t); omega)]
    rw [h1]
    exact ih fun d hd => h d (List.mem_cons_of_mem c hd)

/-- The announcement block utters at most one message. -/
theorem dispatch_log_length (voice : VoiceState) (store : Store)
    (ann : Option Announcement) (now : Nat) :
    (dispatchAnnouncement voice store ann now).1.log.length ≤
      voice.log.length + 1 := by
  unfold dispatchAnnouncement
  cases ann with
  | none => exact Nat.le_succ _
  | some a =>
    dsimp only
    exact speak_log_length voice now a.message _

/-- One processing cycle utters at most one message. -/
theorem processDetections_log_length (st : EngineState) (dets : List Detection)
    (now : Nat) :
    (processDetections st dets now).voice.log.length ≤
      st.voice.log.length + 1 := by
  unfold processDetections
  split
  · exact Nat.le_succ _
  · dsimp only
    exact dispatch_log_length _ _ _ _

/-- C1: for every object class, risk record, position and motion status,
`buildSmartMessage` at a distance level labelled VERY_CLOSE never returns
`none` — a VERY_CLOSE detection is never mapped to silence. -/
theorem c1_very_close_always_speaks (objectClass : String) (risk : RiskCategory)
    (level : DistanceLevel) (position : String) (motionStatus : MotionStatus)
    (h : level.label = DistLabel.VERY_CLOSE) :
    buildSmartMessage objectClass risk level position motionStatus ≠ none := by
  unfold buildSmartMessage
  rw [h]
  simp only [show (DistLabel.VERY_CLOSE == DistLabel.FAR) = false from rfl,
    show (DistLabel.VERY_CLOSE == DistLabel.NEAR) = false from rfl,
    show (DistLabel.VERY_CLOSE == DistLabel.VERY_CLOSE) = true from rfl,
    Bool.false_eq_true, reduceIte, if_true]
  split
  · split <;> simp
  · split
    · split <;> simp
    · split
      · split <;> simp
      · split <;> simp

/-- Witness for C1 at a concrete VERY_CLOSE input. -/
theorem c1_witness :
    LEVEL_VERY_CLOSE.label = DistLabel.VERY_CLOSE ∧
    buildSmartMessage "car" RISK_HIGH LEVEL_VERY_CLOSE "left"
      ⟨true, false, false⟩ ≠ none :=
  ⟨by decide, c1_very_close_always_speaks "car" RISK_HIGH LEVEL_VERY_CLOSE "left"
    ⟨true, false, false⟩ (by decide)⟩

/-- C2 counterexample: `speak` can return false although the priority is
critical (not normal): with an empty text, and likewise with the voice
channel inactive, even a critical dispatch returns false, so the claimed
equivalence fails as stated. -/
theorem c2_counterexample :
    (speak ⟨true, 0, [], 0⟩ 100000 "" Priority.critical).1 = false ∧
    ¬(Priority.critical = Priority.normal ∧
      100000 - (VoiceState.mk true 0 [] 0).lastSpeechTime < globalCooldown) := by
  constructor
  · decide
  · decide

/-- C2 (amended): provided the voice channel is active and the text is
non-empty, `speak` returns false exactly when the priority is normal and
fewer than 8000ms (the global cooldown) have elapsed since
`lastSpeechTime`; after a successful normal dispatch (relative t=0), a
normal dispatch 5000ms later is suppressed and one 8001ms later succeeds,
and a critical dispatch always returns true regardless of elapsed time. -/
theorem c2_cooldown_amended :
    (∀ (vs : VoiceState) (now : Nat) (text : String) (pr : Priority),
      vs.voiceActive = true → text ≠ "" →
      ((speak vs now text pr).1 = false ↔
        pr = Priority.normal ∧ now - vs.lastSpeechTime < globalCooldown)) ∧
    speak ⟨true, 0, [], 0⟩ 10000 "A." Priority.normal =
      (true, ⟨true, 10000, [("A.", Priority.normal)], 0⟩) ∧
    (speak ⟨true, 10000, [("A.", Priority.normal)], 0⟩ 15000 "A."
      Priority.normal).1 = false ∧
    (speak ⟨true, 10000, [("A.", Priority.normal)], 0⟩ 18001 "A."
      Priority.normal).1 = true ∧
    (∀ (vs : VoiceState) (now : Nat) (text : String),
      vs.voiceActive = true → text ≠ "" →
      (speak vs now text Priority.critical).1 = true) := by
  have hmain : ∀ (vs : VoiceState) (now : Nat) (text : String) (pr : Priority),
      vs.voiceActive = true → text ≠ "" →
      ((speak vs now text pr).1 = false ↔
        pr = Priority.normal ∧ now - vs.lastSpeechTime < globalCooldown) := by
    intro vs now text pr ha ht
    have h1 : (!vs.voiceActive || text == "") = false := by
      simp [ha, ht]
    cases pr with
    | critical =>
      rw [(speak_success_fields h1 (by simp)).1]
      simp
    | normal =>
      by_cases hc : now - vs.lastSpeechTime < globalCooldown
      · have h2 : Priority.normal ≠ Priority.critical ∧
            now - vs.lastSpeechTime <
              (if (Priority.normal == Priority.critical) then criticalCooldown
                else globalCooldown) := ⟨by simp, by simpa using hc⟩
        rw [speak_cooldown_reject h1 h2]
        simpa using hc
      · have h2 : ¬(Priority.normal ≠ Priority.critical ∧
            now - vs.lastSpeechTime <
              (if (Priority.normal == Priority.critical) then criticalCooldown
                else globalCooldown)) := by
          simpa using hc
        rw [(speak_success_fields h1 h2).1]
        simpa using hc
  refine ⟨hmain, by decide, by decide, by decide, ?_⟩
  intro vs now text ha ht
  have h1 : (!vs.voiceActive || text == "") = false := by simp [ha, ht]
  exact (speak_success_fields h1 (by simp)).1

/-- Witness for C2 (amended) at concrete inputs. -/
theorem c2_witness :
    ((speak ⟨true, 0, [], 0⟩ 10000 "A." Priority.normal).1 = false ↔
      Priority.normal = Priority.normal ∧
        10000 - (VoiceState.mk true 0 [] 0).lastSpeechTime < globalCooldown) ∧
    (speak ⟨true, 0, [], 0⟩ 12345 "B." Priority.critical).1 = true :=
  ⟨c2_cooldown_amended.1 ⟨true, 0, [], 0⟩ 10000 "A." Priority.normal
      (by decide) (by decide),
    c2_cooldown_amended.2.2.2.2 ⟨true, 0, [], 0⟩ 12345 "B."
      (by decide) (by decide)⟩

/-- The three boolean flags computed from a ratio read back as the spec's
three-way verdict on that ratio. -/
theorem verdictOf_motionFromRatio (r : ℚ) :
    verdictOf (motionFromRatio r) =
      if approachThreshold ≤ r then MotionVerdict.approaching
      else if r ≤ recedeThreshold then MotionVerdict.receding
      else MotionVerdict.stationary := by
  unfold verdictOf motionFromRatio
  by_cases h1 : approachThreshold ≤ r
  · simp [h1, ge_iff_le]
  · by_cases h2 : r ≤ recedeThreshold
    · simp [h1, h2, ge_iff_le]
    · simp [h1, h2, ge_iff_le]

/-- C7: `calculateMotionStatus` refines the spec's algorithm exactly —
fewer than 2 samples is stationary, 2 samples compare `size[1]/size[0]`,
3 or more compare mean of the last two against mean of all earlier, with
approaching iff ratio ≥ 1.05 and receding iff ratio ≤ 0.95 — and the
histories [1000, 1060], [1000, 950], [1000, 1020] classify as approaching,
receding and stationary respectively. -/
theorem c7_motion_algorithm :
    (∀ h : List ℚ, verdictOf (calculateMotionStatus h) = specMotionVerdict h) ∧
    verdictOf (calculateMotionStatus [1000, 1060]) = MotionVerdict.approaching ∧
    verdictOf (calculateMotionStatus [1000, 950]) = MotionVerdict.receding ∧
    verdictOf (calculateMotionStatus [1000, 1020]) = MotionVerdict.stationary := by
  refine ⟨?_, ?_, ?_, ?_⟩
  · intro h
    match h with
    | [] => rfl
    | [a] => rfl
    | [a, b] =>
      unfold calculateMotionStatus specMotionVerdict
      norm_num [minSamples]
      exact verdictOf_motionFromRatio _
    | a :: b :: c :: t =>
      have hlen : (a :: b :: c :: t).length = t.length + 3 := by simp
      have h1 : ¬((a :: b :: c :: t).length < minSamples) := by
        rw [hlen]
        simp [minSamples]
      have h4 : ((a :: b :: c :: t).drop ((a :: b :: c :: t).length - 2)).length
          = 2 := by
        rw [List.length_drop, hlen]
        omega
      have h1b : ¬((a :: b :: c :: t).length < 2) := by
        rw [hlen]
        omega
      unfold calculateMotionStatus specMotionVerdict
      rw [if_neg h1, if_neg h1b]
      dsimp only
      have h2 : ¬(((a :: b :: c :: t).take ((a :: b :: c :: t).length - 2)).length
          = 0) := by
        rw [List.length_take, hlen]
        omega
      rw [if_neg h2, if_neg (by rw [hlen]; omega :
        ¬((a :: b :: c :: t).length = 2))]
      rw [h4]
      push_cast
      exact verdictOf_motionFromRatio _
  · norm_num [calculateMotionStatus, verdictOf, motionFromRatio, minSamples,
      approachThreshold, recedeThreshold]
  · norm_num [calculateMotionStatus, verdictOf, motionFromRatio, minSamples,
      approachThreshold, recedeThreshold]
  · norm_num [calculateMotionStatus, verdictOf, motionFromRatio, minSamples,
      approachThreshold, recedeThreshold]

/-- Every store entry after the announcement block corresponds to an entry
of the swept store with the same key and `lastSeen`. -/
theorem mem_dispatch_store {voice : VoiceState} {store : Store}
    {ann : Option Announcement} {now : Nat} {p : String × TrackedState}
    (h : p ∈ (dispatchAnnouncement voice store ann now).2) :
    ∃ q ∈ store, q.1 = p.1 ∧ q.2.lastSeen = p.2.lastSeen := by
  unfold dispatchAnnouncement at h
  cases ann with
  | none => exact ⟨p, h, rfl, rfl⟩
  | some a =>
    dsimp only at h
    by_cases hs : (speak voice now a.message
        (if a.isCritical then Priority.critical else Priority.normal)).1 = true
    · rw [if_pos hs] at h
      cases hg : mapGet store a.trackId with
      | none =>
        rw [hg] at h
        exact ⟨p, h, rfl, rfl⟩
      | some s =>
        rw [hg] at h
        dsimp only at h
        rcases mem_mapSet h with heq | ⟨hm, _⟩
        · subst heq
          exact ⟨(a.trackId, s), mapGet_some_mem hg, rfl, rfl⟩
        · exact ⟨p, hm, rfl, rfl⟩
    · rw [if_neg hs] at h
      exact ⟨p, h, rfl, rfl⟩

/-- An entry surviving the sweep was present and is either current or
fresh. -/
theorem mem_sweep {now : Nat} {ids : List String} {store : Store}
    {p : String × TrackedState} (h : p ∈ sweep now ids store) :
    p ∈ store ∧ (p.1 ∈ ids ∨ now - p.2.lastSeen ≤ 5000) := by
  unfold sweep at h
  rw [List.mem_filter] at h
  refine ⟨h.1, ?_⟩
  have h2 := h.2
  rw [Bool.or_eq_true] at h2
  rcases h2 with h2 | h2
  · left
    simpa using h2
  · right
    rw [Bool.not_eq_true', decide_eq_false_iff_not, Nat.not_lt] at h2
    exact h2

/-- C3: per cycle at most one candidate is dispatched (the log grows by at
most one); the loop's retention step computes the first candidate of
maximal `priorityScore` (`distanceTierPriority*10 + riskPriority`), with
ties keeping the first encountered; concretely a NEAR/HIGH candidate
(score 23) loses to a simultaneous VERY_CLOSE/MEDIUM candidate (score 32)
and only the latter is dispatched. -/
theorem c3_priority_arbitration :
    (∀ (st : EngineState) (dets : List Detection) (now : Nat),
      (processDetections st dets now).voice.log.length ≤
        st.voice.log.length + 1) ∧
    (∀ l : List Announcement, l.foldl considerCandidate none = firstMax l) ∧
    (∀ (l : List Announcement) (b : Announcement), firstMax l = some b →
      b ∈ l ∧ ∀ c ∈ l, c.priority ≤ b.priority) ∧
    (∀ (l : List Announcement) (a : Announcement),
      (∀ c ∈ l, c.priority ≤ a.priority) →
      l.foldl considerCandidate (some a) = some a) ∧
    (processOne 20000 ⟨[], [], none⟩
        ⟨"car", none, some (mkRat 5 2), none, none, none, none⟩).announcement =
      some ⟨"car_c", "Vehicle nearby.", 23, true⟩ ∧
    ((sortDetections
        [⟨"car", none, some (mkRat 5 2), none, none, none, none⟩,
         ⟨"person", none, some 1, none, none, none, none⟩]).foldl
      (processOne 20000) ⟨[], [], none⟩).announcement =
      some ⟨"person_c", "Careful. Person ahead.", 32, true⟩ ∧
    (processDetections ⟨true, [], ⟨true, 0, [], 0⟩⟩
      [⟨"car", none, some (mkRat 5 2), none, none, none, none⟩,
       ⟨"person", none, some 1, none, none, none, none⟩] 20000).voice.log =
      [("Careful. Person ahead.", Priority.critical)] :=
  ⟨processDetections_log_length, foldl_considerCandidate_none,
    firstMax_mem_max, foldl_keeps_max, by decide, by decide, by decide⟩

/-- Witness for C3 at concrete candidate lists. -/
theorem c3_witness :
    ((⟨"y", "my", 32, true⟩ : Announcement) ∈
        [(⟨"x", "mx", 23, false⟩ : Announcement), ⟨"y", "my", 32, true⟩] ∧
      ∀ c ∈ [(⟨"x", "mx", 23, false⟩ : Announcement), ⟨"y", "my", 32, true⟩],
        c.priority ≤ (Announcement.mk "y" "my" 32 true).priority) ∧
    [(⟨"y", "my", 23, true⟩ : Announcement)].foldl considerCandidate
        (some ⟨"x", "mx", 23, false⟩) = some ⟨"x", "mx", 23, false⟩ :=
  ⟨c3_priority_arbitration.2.2.1 _ _ (by decide),
    c3_priority_arbitration.2.2.2.1 _ _ (by decide)⟩

/-- C4 counterexample: a record with `now - lastSeen = 6000 > 5000` remains
in the store at the end of a cycle, because its identity reappeared in the
batch at CLEAR distance: the sweep skips ids in `currentIds` even when the
record was never refreshed. -/
theorem c4_counterexample :
    (processDetections
        ⟨true, [("car_c", ⟨LEVEL_NEAR, RISK_HIGH, "car", "center", 2, [], false,
          true, 0, 0⟩)], ⟨true, 0, [], 0⟩⟩
        [⟨"car", none, some 7, none, none, none, none⟩] 6000).objectState =
      [("car_c", ⟨LEVEL_NEAR, RISK_HIGH, "car", "center", 2, [], false, true,
        0, 0⟩)] ∧
    6000 - (TrackedState.mk LEVEL_NEAR RISK_HIGH "car" "center" 2 [] false true
      0 0).lastSeen > 5000 :=
  ⟨by decide, by decide⟩

/-- C4 (amended): at the end of a cycle with the voice active and a
nonempty batch, every remaining record is either fresh
(`now - lastSeen ≤ 5000`) or its identity appears among the batch's track
ids — stale records are purged only when their identity is absent from the
current batch. -/
theorem c4_eviction_amended :
    ∀ (st : EngineState) (dets : List Detection) (now : Nat),
      st.voice.voiceActive = true → st.voiceReady = true → dets ≠ [] →
      ∀ p ∈ (processDetections st dets now).objectState,
        now - p.2.lastSeen ≤ 5000 ∨ p.1 ∈ dets.map trackIdOf := by
  intro st dets now ha hr hne p hp
  unfold processDetections at hp
  rw [if_neg (by simp [ha, hr, hne])] at hp
  dsimp only at hp
  obtain ⟨q, hq, hk, hl⟩ := mem_dispatch_store hp
  obtain ⟨-, hpred⟩ := mem_sweep hq
  rw [foldl_currentIds] at hpred
  rcases hpred with hin | hle
  · right
    rw [List.nil_append] at hin
    rw [← hk]
    exact mem_map_sortDetections.mp (by simpa using hin)
  · left
    rw [← hl]
    exact hle

/-- Witness for C4 (amended) at the counterexample's input. -/
theorem c4_witness :
    6000 - ((("car_c"),
        (⟨LEVEL_NEAR, RISK_HIGH, "car", "center", 2, [], false, true, 0, 0⟩ :
          TrackedState)) :
        String × TrackedState).2.lastSeen ≤ 5000 ∨
    (("car_c"),
        (⟨LEVEL_NEAR, RISK_HIGH, "car", "center", 2, [], false, true, 0, 0⟩ :
          TrackedState)).1 ∈
      [(⟨"car", none, some 7, none, none, none, none⟩ : Detection)].map
        trackIdOf :=
  c4_eviction_amended
    ⟨true, [("car_c", ⟨LEVEL_NEAR, RISK_HIGH, "car", "center", 2, [], false,
      true, 0, 0⟩)], ⟨true, 0, [], 0⟩⟩
    [⟨"car", none, some 7, none, none, none, none⟩] 6000
    (by decide) (by decide) (by decide)
    ("car_c", ⟨LEVEL_NEAR, RISK_HIGH, "car", "center", 2, [], false, true, 0, 0⟩)
    (by decide)

/-- C5: an empty batch is a no-op cycle — the engine state (store, voice
channel, log) is returned unchanged, so nothing is announced and tracked
states merely age; and a record stale by more than 5000ms is evicted by
the sweep of any later cycle that processes a nonempty batch not
containing its identity. -/
theorem c5_empty_cycle_noop :
    (∀ (st : EngineState) (now : Nat), processDetections st [] now = st) ∧
    (∀ (st : EngineState) (dets : List Detection) (now : Nat) (id : String),
      st.voice.voiceActive = true → st.voiceReady = true → dets ≠ [] →
      id ∉ dets.map trackIdOf →
      (∀ p ∈ st.objectState, p.1 = id → 5000 < now - p.2.lastSeen) →
      ∀ p ∈ (processDetections st dets now).objectState, p.1 ≠ id) := by
  constructor
  · intro st now
    unfold processDetections
    rw [if_pos (by simp)]
  · intro st dets now id ha hr hne hid hstale p hp heq
    unfold processDetections at hp
    rw [if_neg (by simp [ha, hr, hne])] at hp
    dsimp only at hp
    obtain ⟨q, hq, hk, hl⟩ := mem_dispatch_store hp
    obtain ⟨hqs, hpred⟩ := mem_sweep hq
    have hknotin : q.1 ∉ (sortDetections dets).map trackIdOf := by
      rw [hk, heq]
      intro hmem
      exact hid (mem_map_sortDetections.mp hmem)
    have hqmem : q ∈ st.objectState := by
      rcases mem_store_foldl hqs with h' | h'
      · exact h'
      · exact absurd h' hknotin
    have hqstale := hstale q hqmem (hk.trans heq)
    rw [foldl_currentIds, List.nil_append] at hpred
    rcases hpred with hin | hle
    · exact hknotin (by simpa using hin)
    · omega

/-- C6 counterexample: a detection with no bounding-box data has area 0,
but for an already-tracked object with history [1000, 1060] the motion
status computed that cycle is approaching, not stationary — the claim's
"stationary for every such detection, new or tracked" fails. -/
theorem c6_counterexample :
    getBboxSize ⟨"person", none, some 1, none, none, none, none⟩ = 0 ∧
    (calculateMotionStatus (updateSizes [1000, 1060]
      (getBboxSize ⟨"person", none, some 1, none, none, none, none⟩))).isApproaching
      = true ∧
    (calculateMotionStatus (updateSizes [1000, 1060]
      (getBboxSize ⟨"person", none, some 1, none, none, none, none⟩))).isStationary
      = false := by
  refine ⟨rfl, ?_, ?_⟩ <;>
    norm_num [getBboxSize, updateSizes, calculateMotionStatus, motionFromRatio,
      minSamples, approachThreshold, recedeThreshold]

/-- C6 (amended): a detection with no bounding-box data gets area 0, the
size history is left unchanged (no sample is pushed), and the motion
status is computed from the existing history — in particular stationary
for a new identity, whose stored record that cycle has empty history,
`isApproaching = false` and `isStationary = true`; processing is total, so
no exception can arise. -/
theorem c6_bbox_amended :
    ∀ det : Detection, det.bbox = none → det.coords = none →
      det.widthHeight = none →
      getBboxSize det = 0 ∧
      (∀ sizes : List ℚ, updateSizes sizes (getBboxSize det) = sizes) ∧
      calculateMotionStatus (updateSizes [] (getBboxSize det)) =
        ⟨false, false, true⟩ ∧
      (∀ now : Nat, (levelOf det).label ≠ DistLabel.CLEAR →
        ∃ v, mapGet (processOne now ⟨[], [], none⟩ det).store (trackIdOf det) =
          some v ∧ v.isApproaching = false ∧ v.isStationary = true ∧
          v.bboxSizes = []) := by
  intro det h1 h2 h3
  have hb : getBboxSize det = 0 := by simp [getBboxSize, h1, h2, h3]
  have hu : ∀ sizes : List ℚ, updateSizes sizes (getBboxSize det) = sizes := by
    intro sizes
    rw [hb]
    simp [updateSizes]
  refine ⟨hb, hu, by rw [hu]; rfl, ?_⟩
  intro now hclear
  unfold processOne
  dsimp only
  rw [if_neg (by simpa using hclear)]
  rw [show (mapGet [] (trackIdOf det)) = none from rfl]
  dsimp only
  rw [hu, show calculateMotionStatus [] = ⟨false, false, true⟩ from rfl]
  split
  · dsimp only
    refine ⟨_, mapGet_mapSet_self, ?_, ?_, ?_⟩ <;> rfl
  · split
    · dsimp only
      refine ⟨_, mapGet_mapSet_self, ?_, ?_, ?_⟩ <;> rfl
    · dsimp only
      refine ⟨_, mapGet_mapSet_self, ?_, ?_, ?_⟩ <;> rfl

/-- Witness for C5 at a concrete stale record evicted one cycle later. -/
theorem c5_witness :
    (processDetections
        ⟨true, [("dog_c", ⟨LEVEL_NEAR, RISK_MEDIUM, "dog", "center", 2, [],
          false, true, 0, 0⟩)], ⟨true, 0, [], 0⟩⟩
        [⟨"car", none, some 2, none, none, none, none⟩] 6000 = ⟨true,
          [("dog_c", ⟨LEVEL_NEAR, RISK_MEDIUM, "dog", "center", 2, [],
            false, true, 0, 0⟩)], ⟨true, 0, [], 0⟩⟩) ∨
    ("car_c",
      (⟨LEVEL_NEAR, RISK_HIGH, "car", "center", 2, [], false, true, 6000,
        6000⟩ : TrackedState)).1 ≠ "dog_c" :=
  Or.inr
    (c5_empty_cycle_noop.2
      ⟨true, [("dog_c", ⟨LEVEL_NEAR, RISK_MEDIUM, "dog", "center", 2, [],
        false, true, 0, 0⟩)], ⟨true, 0, [], 0⟩⟩
      [⟨"car", none, some 2, none, none, none, none⟩] 6000 "dog_c"
      (by decide) (by decide) (by decide) (by decide) (by decide)
      ("car_c", ⟨LEVEL_NEAR, RISK_HIGH, "car", "center", 2, [], false, true,
        6000, 6000⟩)
      (by decide))

/-- Witness for C6 (amended) at a concrete bbox-less detection. -/
theorem c6_witness :
    getBboxSize ⟨"person", none, some 1, none, none, none, none⟩ = 0 ∧
    updateSizes [7, 9]
      (getBboxSize ⟨"person", none, some 1, none, none, none, none⟩) = [7, 9] ∧
    calculateMotionStatus (updateSizes []
      (getBboxSize ⟨"person", none, some 1, none, none, none, none⟩)) =
      ⟨false, false, true⟩ ∧
    ∃ v, mapGet (processOne 1000 ⟨[], [], none⟩
        ⟨"person", none, some 1, none, none, none, none⟩).store
        (trackIdOf ⟨"person", none, some 1, none, none, none, none⟩) =
      some v ∧ v.isApproaching = false ∧ v.isStationary = true ∧
      v.bboxSizes = [] := by
  obtain ⟨ha, hu, hm, hp⟩ := c6_bbox_amended
    ⟨"person", none, some 1, none, none, none, none⟩ rfl rfl rfl
  exact ⟨ha, hu [7, 9], hm, hp 1000 (by decide)⟩

/-- C8: a suppressed dispatch leaves the voice state (hence
`lastSpeechTime`) and the store (hence the winner's `lastAnnounced`)
unchanged; a successful dispatch stamps `lastSpeechTime = now` and the
winning object's `lastAnnounced = now`. -/
theorem c8_frame_effects :
    (∀ (vs : VoiceState) (now : Nat) (text : String) (pr : Priority),
      (speak vs now text pr).1 = false → (speak vs now text pr).2 = vs) ∧
    (∀ (vs : VoiceState) (now : Nat) (text : String) (pr : Priority),
      (speak vs now text pr).1 = true →
        (speak vs now text pr).2.lastSpeechTime = now) ∧
    (∀ (voice : VoiceState) (store : Store) (a : Announcement) (now : Nat),
      (speak voice now a.message
        (if a.isCritical then Priority.critical else Priority.normal)).1 =
        false →
      dispatchAnnouncement voice store (some a) now = (voice, store)) ∧
    (∀ (voice : VoiceState) (store : Store) (a : Announcement) (now : Nat)
      (s : TrackedState),
      (speak voice now a.message
        (if a.isCritical then Priority.critical else Priority.normal)).1 =
        true →
      mapGet store a.trackId = some s →
      (dispatchAnnouncement voice store (some a) now).1.lastSpeechTime = now ∧
      mapGet (dispatchAnnouncement voice store (some a) now).2 a.trackId =
        some { s with lastAnnounced := now }) := by
  refine ⟨fun vs now text pr => speak_false_state,
    fun vs now text pr => speak_true_lastSpeechTime, ?_, ?_⟩
  · intro voice store a now hf
    unfold dispatchAnnouncement
    dsimp only
    rw [hf, speak_false_state hf]
    simp
  · intro voice store a now s ht hg
    unfold dispatchAnnouncement
    dsimp only
    rw [ht, if_pos rfl, hg]
    dsimp only
    exact ⟨speak_true_lastSpeechTime ht, mapGet_mapSet_self⟩

/-- Witness for C8 at concrete suppressed and successful dispatches. -/
theorem c8_witness :
    (speak ⟨true, 10000, [], 0⟩ 15000 "A." Priority.normal).2 =
      ⟨true, 10000, [], 0⟩ ∧
    (speak ⟨true, 0, [], 0⟩ 10000 "A." Priority.normal).2.lastSpeechTime =
      10000 ∧
    dispatchAnnouncement ⟨true, 10000, [], 0⟩ [] (some ⟨"x", "m", 23, false⟩)
      15000 = (⟨true, 10000, [], 0⟩, []) ∧
    ((dispatchAnnouncement ⟨true, 0, [], 0⟩
        [("x", ⟨LEVEL_VERY_CLOSE, RISK_MEDIUM, "person", "center", 1, [],
          false, true, 900, 0⟩)]
        (some ⟨"x", "m", 32, true⟩) 1000).1.lastSpeechTime = 1000 ∧
      mapGet (dispatchAnnouncement ⟨true, 0, [], 0⟩
        [("x", ⟨LEVEL_VERY_CLOSE, RISK_MEDIUM, "person", "center", 1, [],
          false, true, 900, 0⟩)]
        (some ⟨"x", "m", 32, true⟩) 1000).2 "x" =
        some { (⟨LEVEL_VERY_CLOSE, RISK_MEDIUM, "person", "center", 1, [],
          false, true, 900, 0⟩ : TrackedState) with lastAnnounced := 1000 }) :=
  ⟨c8_frame_effects.1 ⟨true, 10000, [], 0⟩ 15000 "A." Priority.normal
      (by decide),
    c8_frame_effects.2.1 ⟨true, 0, [], 0⟩ 10000 "A." Priority.normal
      (by decide),
    c8_frame_effects.2.2.1 ⟨true, 10000, [], 0⟩ [] ⟨"x", "m", 23, false⟩ 15000
      (by decide),
    c8_frame_effects.2.2.2 ⟨true, 0, [], 0⟩
      [("x", ⟨LEVEL_VERY_CLOSE, RISK_MEDIUM, "person", "center", 1, [], false,
        true, 900, 0⟩)]
      ⟨"x", "m", 32, true⟩ 1000
      ⟨LEVEL_VERY_CLOSE, RISK_MEDIUM, "person", "center", 1, [], false, true,
        900, 0⟩
      (by decide) (by decide)⟩

/-- C9: a detection with `distance_m` exactly 0 is treated like a missing
distance — the falsy default substitutes 10, the tier is CLEAR, the loop
iteration only records the id (no state, no candidate), and a cycle on
such a batch leaves the voice channel untouched and creates no record, so
the object is never announced. -/
theorem c9_zero_distance :
    ∀ det : Detection, det.distance_m = some 0 →
      jsOrNum det.distance_m 10 = 10 ∧
      jsOrNum none 10 = 10 ∧
      getDistanceLevel (jsOrNum det.distance_m 10) = LEVEL_CLEAR ∧
      (∀ (now : Nat) (ls : LoopState),
        processOne now ls det =
          ⟨ls.store, ls.currentIds ++ [trackIdOf det], ls.announcement⟩) ∧
      (∀ (st : EngineState) (now : Nat),
        (processDetections st [det] now).voice = st.voice) ∧
      (∀ (ready : Bool) (voice : VoiceState) (now : Nat),
        (processDetections ⟨ready, [], voice⟩ [det] now).objectState = []) := by
  intro det hd
  have h10 : jsOrNum det.distance_m 10 = 10 := by simp [jsOrNum, hd]
  have hlevel : getDistanceLevel (jsOrNum det.distance_m 10) = LEVEL_CLEAR := by
    rw [h10]
    decide
  have hone : ∀ (now : Nat) (ls : LoopState),
      processOne now ls det =
        ⟨ls.store, ls.currentIds ++ [trackIdOf det], ls.announcement⟩ := by
    intro now ls
    unfold processOne
    dsimp only
    rw [if_pos (show ((getDistanceLevel (jsOrNum det.distance_m 10)).label ==
      DistLabel.CLEAR) = true by rw [hlevel]; decide)]
  have hvoice : ∀ (st : EngineState) (now : Nat),
      (processDetections st [det] now).voice = st.voice := by
    intro st now
    unfold processDetections
    split
    · rfl
    · dsimp only
      rw [show sortDetections [det] = [det] from rfl, List.foldl_cons,
        List.foldl_nil, hone]
      rfl
  have hstore : ∀ (ready : Bool) (voice : VoiceState) (now : Nat),
      (processDetections ⟨ready, [], voice⟩ [det] now).objectState = [] := by
    intro ready voice now
    unfold processDetections
    split
    · rfl
    · dsimp only
      rw [show sortDetections [det] = [det] from rfl, List.foldl_cons,
        List.foldl_nil, hone]
      rfl
  exact ⟨h10, rfl, hlevel, hone, hvoice, hstore⟩

/-- Witness for C9 at a concrete zero-distance detection. -/
theorem c9_witness :
    jsOrNum (Detection.mk "car" none (some 0) none none none none).distance_m
      10 = 10 ∧
    getDistanceLevel (jsOrNum
      (Detection.mk "car" none (some 0) none none none none).distance_m 10) =
      LEVEL_CLEAR ∧
    processOne 1000 ⟨[], [], none⟩
      ⟨"car", none, some 0, none, none, none, none⟩ =
      ⟨[], [trackIdOf ⟨"car", none, some 0, none, none, none, none⟩], none⟩ ∧
    (processDetections ⟨true, [], ⟨true, 0, [], 0⟩⟩
      [⟨"car", none, some 0, none, none, none, none⟩] 1000).voice =
      ⟨true, 0, [], 0⟩ ∧
    (processDetections ⟨true, [], ⟨true, 0, [], 0⟩⟩
      [⟨"car", none, some 0, none, none, none, none⟩] 1000).objectState = [] := by
  obtain ⟨h1, h2, h3, h4, h5, h6⟩ := c9_zero_distance
    ⟨"car", none, some 0, none, none, none, none⟩ rfl
  exact ⟨h1, h3, h4 1000 ⟨[], [], none⟩, h5 ⟨true, [], ⟨true, 0, [], 0⟩⟩ 1000,
    h6 true ⟨true, 0, [], 0⟩ 1000⟩

/-- C10: a candidate produced by the loop is critical exactly when its
distance tier is VERY_CLOSE or its risk is HIGH at tier NEAR; a critical
dispatch on an active channel always succeeds regardless of
`lastSpeechTime` and cancels in-progress speech; concretely a NEAR/HIGH
alert 1000ms after the previous dispatch is spoken at critical priority. -/
theorem c10_critical_dispatch :
    (∀ (now : Nat) (store : Store) (ids : List String) (det : Detection)
      (a : Announcement),
      (processOne now ⟨store, ids, none⟩ det).announcement = some a →
      (a.isCritical = true ↔ ((levelOf det).label = DistLabel.VERY_CLOSE ∨
        ((riskOf det).label = RiskLabel.HIGH ∧
          (levelOf det).label = DistLabel.NEAR)))) ∧
    (∀ (vs : VoiceState) (now : Nat) (text : String),
      vs.voiceActive = true → text ≠ "" →
      (speak vs now text Priority.critical).1 = true ∧
      (speak vs now text Priority.critical).2.cancels = vs.cancels + 1) ∧
    (∀ (voice : VoiceState) (store : Store) (a : Announcement) (now : Nat),
      a.isCritical = true → voice.voiceActive = true → a.message ≠ "" →
      (dispatchAnnouncement voice store (some a) now).1.log =
        voice.log ++ [(a.message, Priority.critical)]) ∧
    (processDetections ⟨true, [], ⟨true, 9000, [], 0⟩⟩
      [⟨"car", none, some (mkRat 5 2), none, none, none, none⟩] 10000).voice.log
      = [("Vehicle nearby.", Priority.critical)] ∧
    (processDetections ⟨true, [], ⟨true, 9000, [], 0⟩⟩
      [⟨"car", none, some (mkRat 5 2), none, none, none, none⟩]
      10000).voice.cancels = 1 := by
  refine ⟨?_, ?_, ?_, by decide, by decide⟩
  · intro now store ids det a h
    unfold processOne at h
    dsimp only at h
    split at h
    · cases h
    · split at h
      · cases h
      · split at h
        · cases h
        · rw [show ∀ c : Announcement, considerCandidate none c = some c from
            fun c => rfl] at h
          injection h with h
          subst h
          simp [levelOf, riskOf]
  · intro vs now text ha ht
    have h1 : (!vs.voiceActive || text == "") = false := by simp [ha, ht]
    have fields := @speak_success_fields vs now text Priority.critical h1
      (by simp)
    refine ⟨fields.1, ?_⟩
    rw [fields.2.2.2.1]
    simp
  · intro voice store a now hc ha hm
    unfold dispatchAnnouncement
    dsimp only
    rw [if_pos hc]
    have h1 : (!voice.voiceActive || a.message == "") = false := by
      simp [ha, hm]
    have fields := speak_success_fields h1 (show ¬(Priority.critical ≠
      Priority.critical ∧ now - voice.lastSpeechTime <
        (if (Priority.critical == Priority.critical) then criticalCooldown
          else globalCooldown)) by simp)
    exact fields.2.2.1

/-- Witness for C10 at concrete critical dispatches. -/
theorem c10_witness :
    ((Announcement.mk "car_c" "Vehicle nearby." 23 true).isCritical = true ↔
      ((levelOf ⟨"car", none, some (mkRat 5 2), none, none, none,
        none⟩).label = DistLabel.VERY_CLOSE ∨
      ((riskOf ⟨"car", none, some (mkRat 5 2), none, none, none,
        none⟩).label = RiskLabel.HIGH ∧
        (levelOf ⟨"car", none, some (mkRat 5 2), none, none, none,
          none⟩).label = DistLabel.NEAR))) ∧
    (dispatchAnnouncement ⟨true, 500, [], 0⟩ [] (some ⟨"x", "Stop.", 33, true⟩)
      1000).1.log = [] ++ [("Stop.", Priority.critical)] :=
  ⟨c10_critical_dispatch.1 10000 [] [] _ _ (by decide),
    c10_critical_dispatch.2.2.1 ⟨true, 500, [], 0⟩ [] ⟨"x", "Stop.", 33, true⟩
      1000 (by decide) (by decide) (by decide)⟩

end BlindCap
